import Mathlib

/-!
Verification of the Focus Nudge license backend
(`backend/licenseService.js`, `backend/database.js`,
`backend/webhookHandlers.js`, `backend/server.js`).

The license store (a JS `Map` keyed by `userId` in the service layer,
an SQLite table keyed by `userId` in `database.js`) is embedded as an
association list `List (String × License)`; `Map.set` / SQL upsert
replace the value of an existing key in place and append otherwise.
Wall-clock time (`Date.now`) and the random component of
`Math.random().toString(36)` are threaded as explicit parameters.
Calls to the Stripe API (`subscriptions.retrieve`,
`checkout.sessions.retrieve`, `subscriptions.list`) are abstracted as
function parameters.
-/

namespace FocusNudge

/-- A license record, with the fields of the `licenses` table in
`database.js` (`userId` is the key of the store entry, the remaining
columns live in the record).  `expiresAt` is an optional instant
(`null` in JS becomes `none`); `createdAt`/`updatedAt` are
server-assigned instants. -/
structure License where
  licenseKey : String
  stripeCustomerId : String
  stripeSubscriptionId : String
  status : String
  expiresAt : Option Nat
  createdAt : Nat
  updatedAt : Nat
deriving Repr, DecidableEq

/-- The license store: `userId ↦ License`, in insertion order
(JS `Map` iteration order / table row order). -/
abbrev Store := List (String × License)

/-- `db.getLicenseByUserId` (`database.js` lines 46-50): point lookup
by `userId`, `null` (`none`) when absent. -/
def getLicenseByUserId (userId : String) : Store → Option License
  | [] => none
  | (u, l) :: rest => if u = userId then some l else getLicenseByUserId userId rest

/-- `licenses.set(userId, record)` / the SQLite upsert write
(`database.js` lines 83-100): replace the record of an existing
`userId` in place, append a fresh entry otherwise. -/
def setLicense (userId : String) (l : License) : Store → Store
  | [] => [(userId, l)]
  | (u, l0) :: rest =>
      if u = userId then (u, l) :: rest else (u, l0) :: setLicense userId l rest

/-- `generateLicenseKey` (`licenseService.js` lines 8-10):
`fn_${Date.now()}_${random}`. -/
def generateLicenseKey (nowMs : Nat) (rand : String) : String :=
  "fn_" ++ toString nowMs ++ "_" ++ rand

/-- `createLicense` (`licenseService.js` lines 20-32): generate a key
and store a fresh record with `status = active`, `expiresAt = null`;
returns the generated key together with the updated store. -/
def createLicense (userId customerId subscriptionId : String)
    (nowMs : Nat) (rand : String) (s : Store) : String × Store :=
  let licenseKey := generateLicenseKey nowMs rand
  (licenseKey,
    setLicense userId
      { licenseKey := licenseKey
        stripeCustomerId := customerId
        stripeSubscriptionId := subscriptionId
        status := "active"
        expiresAt := none
        createdAt := nowMs
        updatedAt := nowMs } s)

/-- `findUserIdByCustomerId` (`licenseService.js` lines 40-47): scan
the store in order and return the first `userId` whose record carries
the given `stripeCustomerId`. -/
def findUserIdByCustomerId (customerId : String) : Store → Option String
  | [] => none
  | (u, l) :: rest =>
      if l.stripeCustomerId = customerId then some u
      else findUserIdByCustomerId customerId rest

/-- `isValidLicense` (`licenseService.js` lines 54-65): false for a
missing license or one whose status is not `active`; false when
`expiresAt` is set and lies strictly before the current instant;
true otherwise. -/
def isValidLicense (now : Nat) (license : Option License) : Bool :=
  match license with
  | none => false
  | some l =>
      if l.status ≠ "active" then false
      else
        match l.expiresAt with
        | some e => if e < now then false else true
        | none => true

/-- `db.updateLicenseStatus` (`database.js` lines 107-111):
`UPDATE licenses SET status = ?, updatedAt = ? WHERE userId = ?` —
rewrites only `status` and `updatedAt` of every row with that
`userId`; a no-op when no row matches. -/
def updateLicenseStatus (userId status : String) (now : Nat) : Store → Store
  | [] => []
  | (u, l) :: rest =>
      if u = userId then
        (u, { l with status := status, updatedAt := now }) ::
          updateLicenseStatus userId status now rest
      else (u, l) :: updateLicenseStatus userId status now rest

/-- A Stripe object's `customer` field: either a plain id string or an
expanded customer object (of which only `.id` is read). -/
inductive CustomerField where
  | id (s : String)
  | expanded (customerId : String)
deriving Repr, DecidableEq

/-- `extractCustomerId` (`server.js` lines 29-31, duplicated inline in
`webhookHandlers.js` lines 24-26 and 46-48):
`typeof customer === 'string' ? customer : customer.id`. -/
def extractCustomerId : CustomerField → String
  | .id s => s
  | .expanded customerId => customerId

/-- The part of a Stripe subscription object the backend reads. -/
structure Subscription where
  id : String
  customer : CustomerField
  status : String
deriving Repr, DecidableEq

/-- The part of a Stripe checkout-session object the backend reads.
`metadata_userId` stands for `session.metadata?.userId`. -/
structure CheckoutSession where
  client_reference_id : Option String
  metadata_userId : Option String
  mode : String
  subscription : String
  payment_status : String
deriving Repr, DecidableEq

/-- JS truthiness of a nullable string: `null`/`undefined` and the
empty string are falsy. -/
def jsTruthyStr : Option String → Bool
  | none => false
  | some s => s != ""

/-- JS `a || b` on nullable strings: `b` when `a` is falsy. -/
def jsOrStr (a b : Option String) : Option String :=
  if jsTruthyStr a then a else b

/-- `session.client_reference_id || session.metadata?.userId`
(`webhookHandlers.js` line 16). -/
def sessionUserId (sess : CheckoutSession) : Option String :=
  jsOrStr sess.client_reference_id sess.metadata_userId

/-- `handleSubscriptionUpdate` (`webhookHandlers.js` lines 45-64):
normalize the customer field, look the customer up in the store, drop
the event when unknown or when the user has no record, otherwise set
the status to `active` exactly when the provider-reported status is
`active` or `trialing` and to `canceled` otherwise. -/
def handleSubscriptionUpdate (sub : Subscription) (now : Nat) (s : Store) : Store :=
  let customerId := extractCustomerId sub.customer
  match findUserIdByCustomerId customerId s with
  | none => s
  | some userId =>
      match getLicenseByUserId userId s with
      | none => s
      | some _ =>
          let isActive := sub.status == "active" || sub.status == "trialing"
          updateLicenseStatus userId (if isActive then "active" else "canceled") now s

/-- `handleCheckoutCompleted` (`webhookHandlers.js` lines 15-39).
`retrieveSub` abstracts `stripe.subscriptions.retrieve`; the returned
boolean records whether that provider call was made.  The handler is
inert when the correlation `userId` is falsy or the session is not in
subscription mode; when an active record already exists it does
nothing (duplicate-event guard); otherwise it calls `createLicense`. -/
def handleCheckoutCompleted (retrieveSub : String → Subscription)
    (sess : CheckoutSession) (nowMs : Nat) (rand : String) (s : Store) :
    Store × Bool :=
  let uidOpt := sessionUserId sess
  if !jsTruthyStr uidOpt || sess.mode != "subscription" then (s, false)
  else
    let userId := uidOpt.getD ""
    let sub := retrieveSub sess.subscription
    let customerId := extractCustomerId sub.customer
    match getLicenseByUserId userId s with
    | some existing =>
        if existing.status = "active" then (s, true)
        else ((createLicense userId customerId sub.id nowMs rand s).2, true)
    | none => ((createLicense userId customerId sub.id nowMs rand s).2, true)

/-- Outcome of the `/api/auto-create-license` endpoint, keeping the
distinct response shapes of `server.js` lines 395-444: the two success
messages and the three 400-level eligibility rejections. -/
inductive AutoCreateResult where
  | alreadyExists (licenseKey : String)
  | created (licenseKey : String)
  | paymentNotCompleted
  | notSubscriptionMode
  | subscriptionNotActive (status : String)
deriving Repr, DecidableEq

/-- The three eligibility rejections of `/api/auto-create-license`
("Payment not completed", "Not a subscription session",
"Subscription status is X, not active"). -/
def AutoCreateResult.isNotEligible : AutoCreateResult → Bool
  | .paymentNotCompleted => true
  | .notSubscriptionMode => true
  | .subscriptionNotActive _ => true
  | _ => false

/-- `AutoCreateResult.created` recognizer. -/
def AutoCreateResult.isCreated : AutoCreateResult → Bool
  | .created _ => true
  | _ => false

/-- The validation-and-create tail of `/api/auto-create-license`
(`server.js` lines 413-439), reached when no valid license exists:
retrieve the session, reject unless it is paid and in subscription
mode, retrieve the subscription, reject unless its status is `active`
or `trialing`, then `createLicense`. -/
def autoCreateFresh (retrieveSession : String → CheckoutSession)
    (retrieveSub : String → Subscription) (sessionId userId : String)
    (nowMs : Nat) (rand : String) (s : Store) : AutoCreateResult × Store :=
  let sess := retrieveSession sessionId
  if sess.payment_status != "paid" then (.paymentNotCompleted, s)
  else if sess.mode != "subscription" then (.notSubscriptionMode, s)
  else
    let sub := retrieveSub sess.subscription
    if sub.status != "active" && sub.status != "trialing" then
      (.subscriptionNotActive sub.status, s)
    else
      let r := createLicense userId (extractCustomerId sub.customer) sub.id nowMs rand s
      (.created r.1, r.2)

/-- The `/api/auto-create-license` endpoint (`server.js` lines
395-444): if a valid license already exists for `userId`, return its
key unchanged ("License already exists"); otherwise validate the
session and subscription and create a license. -/
def autoCreateLicense (retrieveSession : String → CheckoutSession)
    (retrieveSub : String → Subscription) (sessionId userId : String)
    (now nowMs : Nat) (rand : String) (s : Store) : AutoCreateResult × Store :=
  match getLicenseByUserId userId s with
  | some existing =>
      if isValidLicense now (some existing) then (.alreadyExists existing.licenseKey, s)
      else autoCreateFresh retrieveSession retrieveSub sessionId userId nowMs rand s
  | none => autoCreateFresh retrieveSession retrieveSub sessionId userId nowMs rand s

/-- The subscription id actually used by the portal-session
reconciliation (`server.js` lines 299-309): the one discovered from
the session/subscription scans when present, otherwise the first
active subscription of the customer (`stripe.subscriptions.list`,
abstracted as `customerSubs`). -/
def effectiveSubscriptionId (customerSubs : String → Option String)
    (subscriptionId : Option String) (customerId : String) : Option String :=
  match subscriptionId with
  | some x => some x
  | none => customerSubs customerId

/-- The create-or-find step of the portal-session reconciliation
(`server.js` lines 292-316), entered once the Stripe scans have
discovered a `customerId` (and possibly a `subscriptionId`): if the
`customerId` already maps to a local `userId`, return that user's
record and leave the store alone; otherwise create a record for the
requesting `userId` using the discovered ids (none created when no
subscription id can be found). -/
def reconcileCustomer (customerSubs : String → Option String)
    (userId customerId : String) (subscriptionId : Option String)
    (nowMs : Nat) (rand : String) (s : Store) : Option License × Store :=
  match findUserIdByCustomerId customerId s with
  | some existingUserId => (getLicenseByUserId existingUserId s, s)
  | none =>
      match effectiveSubscriptionId customerSubs subscriptionId customerId with
      | some subId =>
          let s2 := (createLicense userId customerId subId nowMs rand s).2
          (getLicenseByUserId userId s2, s2)
      | none => (none, s)

/-- The spec's `createOrGetLicense`, as realized at the call sites of
`createLicense` (duplicate-event guard of `webhookHandlers.js` lines
28-34): when a record for `userId` exists and is `active`, return its
key and leave the store unchanged; otherwise `createLicense`. -/
def createOrGetLicense (userId customerId subscriptionId : String)
    (nowMs : Nat) (rand : String) (s : Store) : String × Store :=
  match getLicenseByUserId userId s with
  | some existing =>
      if existing.status = "active" then (existing.licenseKey, s)
      else createLicense userId customerId subscriptionId nowMs rand s
  | none => createLicense userId customerId subscriptionId nowMs rand s

/-- Number of store entries keyed by `userId`. -/
def countUser (userId : String) : Store → Nat
  | [] => 0
  | (u, _) :: rest => (if u = userId then 1 else 0) + countUser userId rest

/-- Number of store entries whose record carries the given
`stripeCustomerId` with status `active`. -/
def countActiveForCustomer (customerId : String) : Store → Nat
  | [] => 0
  | (_, l) :: rest =>
      (if l.stripeCustomerId = customerId ∧ l.status = "active" then 1 else 0) +
        countActiveForCustomer customerId rest

/-- The fields of a record untouched by a status transition:
everything except `status` and `updatedAt`. -/
def licenseFrame (l : License) : String × String × String × Option Nat × Nat :=
  (l.licenseKey, l.stripeCustomerId, l.stripeSubscriptionId, l.expiresAt, l.createdAt)

/-! ### Store lemmas -/

theorem getLicenseByUserId_setLicense_self (u : String) (l : License) (s : Store) :
    getLicenseByUserId u (setLicense u l s) = some l := by
  induction s with
  | nil => simp [setLicense, getLicenseByUserId]
  | cons p rest ih =>
      obtain ⟨u0, l0⟩ := p
      by_cases h : u0 = u
      · simp [setLicense, getLicenseByUserId, h]
      · simp [setLicense, getLicenseByUserId, h, ih]

theorem getLicenseByUserId_setLicense_other (u u' : String) (l : License) (s : Store)
    (h : u' ≠ u) :
    getLicenseByUserId u' (setLicense u l s) = getLicenseByUserId u' s := by
  have hne : ¬ u = u' := fun hh => h hh.symm
  induction s with
  | nil => simp [setLicense, getLicenseByUserId, hne]
  | cons p rest ih =>
      obtain ⟨u0, l0⟩ := p
      by_cases h0 : u0 = u
      · subst h0
        simp [setLicense, getLicenseByUserId, hne]
      · simp only [setLicense, if_neg h0, getLicenseByUserId]
        split
        · rfl
        · exact ih

theorem getLicenseByUserId_updateLicenseStatus (u' u st : String) (now : Nat) (s : Store) :
    getLicenseByUserId u' (updateLicenseStatus u st now s) =
      if u' = u then
        (getLicenseByUserId u' s).map (fun l => { l with status := st, updatedAt := now })
      else getLicenseByUserId u' s := by
  induction s with
  | nil => simp [updateLicenseStatus, getLicenseByUserId]
  | cons p rest ih =>
      obtain ⟨u0, l0⟩ := p
      by_cases h0 : u0 = u
      · subst h0
        by_cases h1 : u' = u0
        · subst h1
          simp [updateLicenseStatus, getLicenseByUserId, ih]
        · have h1' : ¬ u0 = u' := fun hh => h1 hh.symm
          simp [updateLicenseStatus, getLicenseByUserId, h1, h1', ih]
      · by_cases h1 : u0 = u'
        · subst h1
          simp [updateLicenseStatus, getLicenseByUserId, h0]
        · simp [updateLicenseStatus, getLicenseByUserId, h0, h1, ih]

theorem countUser_eq_zero_of_not_mem (u : String) (s : Store)
    (h : u ∉ s.map Prod.fst) : countUser u s = 0 := by
  induction s with
  | nil => rfl
  | cons p rest ih =>
      obtain ⟨u0, l0⟩ := p
      simp only [List.map_cons, List.mem_cons] at h
      push_neg at h
      simp [countUser, Ne.symm h.1, ih h.2]

theorem countUser_of_get_some (u : String) (l : License) (s : Store)
    (hN : (s.map Prod.fst).Nodup) (hg : getLicenseByUserId u s = some l) :
    countUser u s = 1 := by
  induction s with
  | nil => simp [getLicenseByUserId] at hg
  | cons p rest ih =>
      obtain ⟨u0, l0⟩ := p
      simp only [List.map_cons, List.nodup_cons] at hN
      by_cases h0 : u0 = u
      · subst h0
        simp [countUser, countUser_eq_zero_of_not_mem u0 rest hN.1]
      · simp only [getLicenseByUserId, if_neg h0] at hg
        simp [countUser, h0, ih hN.2 hg]

theorem countUser_setLicense (u : String) (l : License) (s : Store)
    (hN : (s.map Prod.fst).Nodup) : countUser u (setLicense u l s) = 1 := by
  induction s with
  | nil => simp [setLicense, countUser]
  | cons p rest ih =>
      obtain ⟨u0, l0⟩ := p
      simp only [List.map_cons, List.nodup_cons] at hN
      by_cases h0 : u0 = u
      · subst h0
        simp [setLicense, countUser, countUser_eq_zero_of_not_mem u0 rest hN.1]
      · simp [setLicense, countUser, h0, ih hN.2]

theorem findUserIdByCustomerId_eq_none_iff (c : String) (s : Store) :
    findUserIdByCustomerId c s = none ↔ ∀ p ∈ s, p.2.stripeCustomerId ≠ c := by
  induction s with
  | nil => simp [findUserIdByCustomerId]
  | cons p rest ih =>
      obtain ⟨u0, l0⟩ := p
      by_cases h0 : l0.stripeCustomerId = c
      · simp [findUserIdByCustomerId, h0]
      · simp [findUserIdByCustomerId, h0, ih]

theorem countActiveForCustomer_eq_zero (c : String) (s : Store)
    (h : ∀ p ∈ s, p.2.stripeCustomerId ≠ c) : countActiveForCustomer c s = 0 := by
  induction s with
  | nil => rfl
  | cons p rest ih =>
      obtain ⟨u0, l0⟩ := p
      have h0 : l0.stripeCustomerId ≠ c := h (u0, l0) (List.mem_cons_self _ _)
      have hrest : ∀ q ∈ rest, q.2.stripeCustomerId ≠ c :=
        fun q hq => h q (List.mem_cons_of_mem _ hq)
      simp [countActiveForCustomer, h0, ih hrest]

theorem countActiveForCustomer_setLicense_le_one (c u : String) (l : License) (s : Store)
    (h : ∀ p ∈ s, p.2.stripeCustomerId ≠ c) :
    countActiveForCustomer c (setLicense u l s) ≤ 1 := by
  induction s with
  | nil =>
      simp only [setLicense, countActiveForCustomer]
      split <;> simp
  | cons p rest ih =>
      obtain ⟨u0, l0⟩ := p
      have h0 : l0.stripeCustomerId ≠ c := h (u0, l0) (List.mem_cons_self _ _)
      have hrest : ∀ q ∈ rest, q.2.stripeCustomerId ≠ c :=
        fun q hq => h q (List.mem_cons_of_mem _ hq)
      by_cases hu : u0 = u
      · subst hu
        simp only [setLicense, if_pos rfl, countActiveForCustomer,
          countActiveForCustomer_eq_zero c rest hrest]
        split <;> simp
      · simp only [setLicense, if_neg hu, countActiveForCustomer]
        rw [if_neg (fun hc => h0 hc.1)]
        simpa using ih hrest

/-! ### Concrete fixtures -/

/-- A record with status `active` whose `expiresAt` equals the instant at
which it is evaluated. -/
def boundaryLicense : License :=
  { licenseKey := "fn_1_k"
    stripeCustomerId := "cus_1"
    stripeSubscriptionId := "sub_1"
    status := "active"
    expiresAt := some 100
    createdAt := 0
    updatedAt := 0 }

/-- An active, non-expiring record for customer `cus_1`. -/
def activeLicense : License :=
  { licenseKey := "fn_0_k"
    stripeCustomerId := "cus_1"
    stripeSubscriptionId := "sub_1"
    status := "active"
    expiresAt := none
    createdAt := 0
    updatedAt := 0 }

/-- A canceled record for customer `cus_1`. -/
def canceledLicense : License :=
  { licenseKey := "fn_2_a"
    stripeCustomerId := "cus_1"
    stripeSubscriptionId := "sub_1"
    status := "canceled"
    expiresAt := none
    createdAt := 0
    updatedAt := 0 }

/-- A store holding one valid license, for user `u1`. -/
def validStore : Store := [("u1", activeLicense)]

/-- A store holding one canceled license, for user `u1`. -/
def canceledStore : Store := [("u1", canceledLicense)]

/-- An active subscription object for customer `cus_1`. -/
def demoSub : Subscription :=
  { id := "sub_1", customer := .id "cus_1", status := "active" }

/-- A paid subscription-mode checkout session correlated to `u1`. -/
def paidSession : CheckoutSession :=
  { client_reference_id := some "u1"
    metadata_userId := none
    mode := "subscription"
    subscription := "sub_1"
    payment_status := "paid" }

/-- A subscription-mode checkout session correlated to `u1` whose payment
is not completed. -/
def unpaidSession : CheckoutSession :=
  { client_reference_id := some "u1"
    metadata_userId := none
    mode := "subscription"
    subscription := "sub_1"
    payment_status := "unpaid" }

/-! ### Claim C2: entitlement check -/

/-- Modelled from the spec's words for comparison with `isValidLicense`:
"true iff `license != null`, `license.status == active`, and
(`expiresAt == null` or `expiresAt` is in the future)", reading
"in the future" strictly (`now < e`) as claim C2 does. -/
def specEntitledStrict (now : Nat) (license : Option License) : Prop :=
  match license with
  | none => False
  | some l =>
      l.status = "active" ∧
        (match l.expiresAt with
         | none => True
         | some e => now < e)

/-- The entitlement predicate as the code actually decides it:
`expiresAt` null or not strictly before the current instant. -/
def specEntitledNotPast (now : Nat) (license : Option License) : Prop :=
  match license with
  | none => False
  | some l =>
      l.status = "active" ∧
        (match l.expiresAt with
         | none => True
         | some e => ¬ e < now)

/-- Claim C2, counterexample: a record with `status = active` whose
`expiresAt` equals the current instant is accepted by `isValidLicense`
(the code tests `expiresAt < now`), yet its expiry is not strictly in
the future — so the claimed biconditional fails at this input. -/
theorem isValidLicense_strict_iff_counterexample :
    ¬ (isValidLicense 100 (some boundaryLicense) = true ↔
        specEntitledStrict 100 (some boundaryLicense)) := by
  intro h
  have hv : isValidLicense 100 (some boundaryLicense) = true := by decide
  have hs := h.mp hv
  simp [specEntitledStrict, boundaryLicense] at hs

/-- Claim C2 (amended): `isValidLicense` returns true iff the license is
non-null, its status is `active`, and `expiresAt` is either null or not
strictly before the current instant (an expiry exactly at the current
instant still counts as entitled); in particular a past expiry is
rejected and a null input yields false rather than an error. -/
theorem isValidLicense_iff_entitled (now : Nat) (license : Option License) :
    isValidLicense now license = true ↔ specEntitledNotPast now license := by
  cases license with
  | none => simp [isValidLicense, specEntitledNotPast]
  | some l =>
      cases he : l.expiresAt with
      | none =>
          by_cases hs : l.status = "active" <;>
            simp [isValidLicense, specEntitledNotPast, hs, he]
      | some e =>
          by_cases hs : l.status = "active" <;> by_cases hlt : e < now <;>
            simp [isValidLicense, specEntitledNotPast, hs, he, hlt]

/-! ### Claim C3: unknown-customer events are dropped -/

/-- Claim C3: a subscription-updated/deleted event whose `customerId` has
no mapping to a local user is dropped by the handler: the store is
returned unchanged (and, the handler being a total function of the store,
no error is raised). -/
theorem handleSubscriptionUpdate_unknown_customer
    (sub : Subscription) (now : Nat) (s : Store)
    (h : findUserIdByCustomerId (extractCustomerId sub.customer) s = none) :
    handleSubscriptionUpdate sub now s = s := by
  simp [handleSubscriptionUpdate, h]

/-- Witness for claim C3 at a concrete event and store. -/
theorem handleSubscriptionUpdate_unknown_customer_w :
    handleSubscriptionUpdate
        { id := "sub_9", customer := .id "cus_unknown", status := "canceled" } 7
        validStore = validStore :=
  handleSubscriptionUpdate_unknown_customer _ 7 validStore (by decide)

/-! ### Claim C4: status follows provider-reported subscription status -/

/-- Claim C4: for a subscription event whose customer maps to a local user
holding a record, the handler sets that record's status to `active`
exactly when the provider-reported subscription status is `active` or
`trialing`, and to `canceled` otherwise — independently of the previous
status, so a canceled-to-active resubscription is accepted without
special-casing. -/
theorem handleSubscriptionUpdate_sets_status
    (sub : Subscription) (now : Nat) (s : Store) (uid : String) (l : License)
    (hf : findUserIdByCustomerId (extractCustomerId sub.customer) s = some uid)
    (hg : getLicenseByUserId uid s = some l) :
    (getLicenseByUserId uid (handleSubscriptionUpdate sub now s)).map License.status =
      some (if sub.status = "active" ∨ sub.status = "trialing"
            then "active" else "canceled") := by
  by_cases ha : sub.status = "active" <;> by_cases ht : sub.status = "trialing" <;>
    simp [handleSubscriptionUpdate, hf, hg, getLicenseByUserId_updateLicenseStatus,
      ha, ht]

/-- Witness for claim C4: a `canceled` record flips to `active` on an
`active` provider status (resubscription). -/
theorem handleSubscriptionUpdate_sets_status_w :
    (getLicenseByUserId "u1"
        (handleSubscriptionUpdate demoSub 5 canceledStore)).map License.status =
      some "active" := by
  have h := handleSubscriptionUpdate_sets_status demoSub 5 canceledStore "u1"
    canceledLicense (by decide) (by decide)
  simpa using h

/-! ### Claim C5: status transitions change only status and updatedAt -/

/-- Claim C5: processing a subscription update/delete event changes at
most the `status` and `updatedAt` fields of any stored record:
`licenseKey`, `customerId`, `subscriptionId`, `expiresAt`, `createdAt`
are preserved for every user, and no record is added or removed — so the
`licenseKey` is stable across status transitions. -/
theorem handleSubscriptionUpdate_frame
    (sub : Subscription) (now : Nat) (s : Store) (u : String) :
    (getLicenseByUserId u (handleSubscriptionUpdate sub now s)).map licenseFrame =
      (getLicenseByUserId u s).map licenseFrame := by
  rcases hf : findUserIdByCustomerId (extractCustomerId sub.customer) s with _ | uid
  · simp [handleSubscriptionUpdate, hf]
  · rcases hg : getLicenseByUserId uid s with _ | l
    · simp [handleSubscriptionUpdate, hf, hg]
    · simp only [handleSubscriptionUpdate, hf, hg, getLicenseByUserId_updateLicenseStatus]
      split
      · cases getLicenseByUserId u s <;> simp [licenseFrame]
      · rfl

/-! ### Claim C6: uncorrelated or non-subscription checkout is inert -/

/-- Claim C6: when the checkout event carries no truthy correlation
`userId` (both `client_reference_id` and `metadata.userId` absent or
empty) or its mode is not `subscription`, the handler returns with the
store unchanged and without calling the billing provider. -/
theorem handleCheckoutCompleted_inert
    (retrieveSub : String → Subscription) (sess : CheckoutSession)
    (nowMs : Nat) (rand : String) (s : Store)
    (h : jsTruthyStr (sessionUserId sess) = false ∨ sess.mode ≠ "subscription") :
    handleCheckoutCompleted retrieveSub sess nowMs rand s = (s, false) := by
  rcases h with h | h <;> simp [handleCheckoutCompleted, h, bne_iff_ne]

/-- Witness for claim C6: a payment-mode session leaves the store alone
and never contacts Stripe. -/
theorem handleCheckoutCompleted_inert_w :
    handleCheckoutCompleted (fun _ => demoSub)
        { client_reference_id := some "u1", metadata_userId := none,
          mode := "payment", subscription := "sub_1", payment_status := "paid" }
        3 "r" validStore = (validStore, false) :=
  handleCheckoutCompleted_inert _ _ 3 "r" validStore (Or.inr (by decide))

/-! ### Claim C1: idempotent license creation -/

theorem createOrGetLicense_short_circuit
    (userId customerId subscriptionId : String) (nowMs : Nat) (rand : String)
    (t : Store) (l1 : License)
    (hget : getLicenseByUserId userId t = some l1) (hact : l1.status = "active") :
    createOrGetLicense userId customerId subscriptionId nowMs rand t =
      (l1.licenseKey, t) := by
  unfold createOrGetLicense
  rw [hget]
  simp [hact]

theorem createOrGetLicense_active_after
    (userId customerId subscriptionId : String) (nowMs : Nat) (rand : String)
    (s : Store) :
    ∃ l1, getLicenseByUserId userId
        (createOrGetLicense userId customerId subscriptionId nowMs rand s).2 = some l1 ∧
      l1.status = "active" ∧
      l1.licenseKey = (createOrGetLicense userId customerId subscriptionId nowMs rand s).1 := by
  unfold createOrGetLicense
  rcases hg : getLicenseByUserId userId s with _ | l
  · exact ⟨_, getLicenseByUserId_setLicense_self userId _ s, rfl, rfl⟩
  · by_cases ha : l.status = "active"
    · exact ⟨l, by simp [hg, ha], ha, by simp [ha]⟩
    · simp only [if_neg ha]
      exact ⟨_, getLicenseByUserId_setLicense_self userId _ s, rfl, rfl⟩

theorem countUser_createOrGetLicense
    (userId customerId subscriptionId : String) (nowMs : Nat) (rand : String)
    (s : Store) (hN : (s.map Prod.fst).Nodup) :
    countUser userId (createOrGetLicense userId customerId subscriptionId nowMs rand s).2 = 1 := by
  unfold createOrGetLicense
  rcases hg : getLicenseByUserId userId s with _ | l
  · exact countUser_setLicense userId _ s hN
  · by_cases ha : l.status = "active"
    · simpa [ha] using countUser_of_get_some userId l s hN hg
    · simp only [if_neg ha]
      exact countUser_setLicense userId _ s hN

/-- Claim C1: `createOrGetLicense` is idempotent — a second call for the
same `userId` returns the same `licenseKey`, leaves the store exactly as
the first call left it (no new key is generated), and exactly one record
is stored for that user. -/
theorem createOrGetLicense_idempotent
    (userId customerId subscriptionId : String) (n1 n2 : Nat) (r1 r2 : String)
    (s : Store) (hN : (s.map Prod.fst).Nodup) :
    (createOrGetLicense userId customerId subscriptionId n2 r2
        (createOrGetLicense userId customerId subscriptionId n1 r1 s).2).1 =
      (createOrGetLicense userId customerId subscriptionId n1 r1 s).1 ∧
    (createOrGetLicense userId customerId subscriptionId n2 r2
        (createOrGetLicense userId customerId subscriptionId n1 r1 s).2).2 =
      (createOrGetLicense userId customerId subscriptionId n1 r1 s).2 ∧
    countUser userId (createOrGetLicense userId customerId subscriptionId n1 r1 s).2 = 1 := by
  obtain ⟨l1, hget, hact, hkey⟩ :=
    createOrGetLicense_active_after userId customerId subscriptionId n1 r1 s
  have h2 := createOrGetLicense_short_circuit userId customerId subscriptionId n2 r2
    (createOrGetLicense userId customerId subscriptionId n1 r1 s).2 l1 hget hact
  refine ⟨?_, ?_, countUser_createOrGetLicense userId customerId subscriptionId n1 r1 s hN⟩
  · rw [h2, hkey]
  · rw [h2]

/-- Witness for claim C1 on the empty store. -/
theorem createOrGetLicense_idempotent_w :
    (createOrGetLicense "u1" "cus_1" "sub_1" 2 "b"
        (createOrGetLicense "u1" "cus_1" "sub_1" 1 "a" []).2).1 =
      (createOrGetLicense "u1" "cus_1" "sub_1" 1 "a" []).1 ∧
    (createOrGetLicense "u1" "cus_1" "sub_1" 2 "b"
        (createOrGetLicense "u1" "cus_1" "sub_1" 1 "a" []).2).2 =
      (createOrGetLicense "u1" "cus_1" "sub_1" 1 "a" []).2 ∧
    countUser "u1" (createOrGetLicense "u1" "cus_1" "sub_1" 1 "a" []).2 = 1 :=
  createOrGetLicense_idempotent "u1" "cus_1" "sub_1" 1 2 "a" "b" [] (by simp)

/-! ### Claims C7 and C10: checkout-completed behaviour -/

/-- Run of `handleCheckoutCompleted` once the correlation/mode guard
passes: the duplicate-event check against the store decides between the
no-op and `createLicense`. -/
theorem handleCheckoutCompleted_run (retrieveSub : String → Subscription)
    (sess : CheckoutSession) (nowMs : Nat) (rand : String) (s : Store) (uid : String)
    (hu : sessionUserId sess = some uid) (hne : uid ≠ "")
    (hm : sess.mode = "subscription") :
    handleCheckoutCompleted retrieveSub sess nowMs rand s =
      match getLicenseByUserId uid s with
      | some existing =>
          if existing.status = "active" then (s, true)
          else ((createLicense uid (extractCustomerId (retrieveSub sess.subscription).customer)
                  (retrieveSub sess.subscription).id nowMs rand s).2, true)
      | none => ((createLicense uid (extractCustomerId (retrieveSub sess.subscription).customer)
                  (retrieveSub sess.subscription).id nowMs rand s).2, true) := by
  simp [handleCheckoutCompleted, hu, hm, jsTruthyStr, bne_iff_ne, hne]

/-- Claim C7: replaying the same verified checkout-completed event is
idempotent: after the first delivery exactly one record is stored for the
correlated user and its status is `active`; the second delivery hits the
duplicate-event guard and leaves the store unchanged, so the end state is
the same with no duplicate record. -/
theorem handleCheckoutCompleted_replay_idempotent
    (retrieveSub : String → Subscription) (sess : CheckoutSession)
    (n1 n2 : Nat) (r1 r2 : String) (s : Store) (uid : String)
    (hN : (s.map Prod.fst).Nodup)
    (hu : sessionUserId sess = some uid) (hne : uid ≠ "")
    (hm : sess.mode = "subscription") :
    (handleCheckoutCompleted retrieveSub sess n2 r2
        (handleCheckoutCompleted retrieveSub sess n1 r1 s).1).1 =
      (handleCheckoutCompleted retrieveSub sess n1 r1 s).1 ∧
    countUser uid (handleCheckoutCompleted retrieveSub sess n1 r1 s).1 = 1 ∧
    (getLicenseByUserId uid (handleCheckoutCompleted retrieveSub sess n1 r1 s).1).map
        License.status = some "active" := by
  have h1 := handleCheckoutCompleted_run retrieveSub sess n1 r1 s uid hu hne hm
  have key : ∃ l1, getLicenseByUserId uid (handleCheckoutCompleted retrieveSub sess n1 r1 s).1 =
      some l1 ∧ l1.status = "active" ∧
      countUser uid (handleCheckoutCompleted retrieveSub sess n1 r1 s).1 = 1 := by
    rw [h1]
    rcases hg : getLicenseByUserId uid s with _ | l
    · exact ⟨_, getLicenseByUserId_setLicense_self uid _ s, rfl,
        countUser_setLicense uid _ s hN⟩
    · by_cases ha : l.status = "active"
      · exact ⟨l, by simp [hg, ha], ha, by simpa [ha] using countUser_of_get_some uid l s hN hg⟩
      · simp only [if_neg ha]
        exact ⟨_, getLicenseByUserId_setLicense_self uid _ s, rfl,
          countUser_setLicense uid _ s hN⟩
  obtain ⟨l1, hget, hact, hcount⟩ := key
  have h2 := handleCheckoutCompleted_run retrieveSub sess n2 r2
    (handleCheckoutCompleted retrieveSub sess n1 r1 s).1 uid hu hne hm
  rw [hget] at h2
  simp only [if_pos hact] at h2
  exact ⟨by rw [h2], hcount, by simp [hget, hact]⟩

/-- Witness for claim C7 on the empty store. -/
theorem handleCheckoutCompleted_replay_idempotent_w :
    (handleCheckoutCompleted (fun _ => demoSub) paidSession 2 "b"
        (handleCheckoutCompleted (fun _ => demoSub) paidSession 1 "a" []).1).1 =
      (handleCheckoutCompleted (fun _ => demoSub) paidSession 1 "a" []).1 ∧
    countUser "u1" (handleCheckoutCompleted (fun _ => demoSub) paidSession 1 "a" []).1 = 1 ∧
    (getLicenseByUserId "u1"
        (handleCheckoutCompleted (fun _ => demoSub) paidSession 1 "a" []).1).map
        License.status = some "active" :=
  handleCheckoutCompleted_replay_idempotent (fun _ => demoSub) paidSession 1 2 "a" "b" []
    "u1" (by simp) (by decide) (by decide) (by decide)

/-- Claim C10: when the correlated user holds a `canceled` record the
checkout handler does not short-circuit: `createLicense` runs and the
stored record is overwritten with status `active` and the freshly
generated key, which differs from the previously issued key whenever key
generation does not collide with it. -/
theorem handleCheckoutCompleted_resubscribe_fresh_key
    (retrieveSub : String → Subscription) (sess : CheckoutSession)
    (nowMs : Nat) (rand : String) (s : Store) (uid : String) (l : License)
    (hu : sessionUserId sess = some uid) (hne : uid ≠ "")
    (hm : sess.mode = "subscription")
    (hg : getLicenseByUserId uid s = some l)
    (hc : l.status = "canceled")
    (hk : generateLicenseKey nowMs rand ≠ l.licenseKey) :
    ∃ l2, getLicenseByUserId uid
        (handleCheckoutCompleted retrieveSub sess nowMs rand s).1 = some l2 ∧
      l2.licenseKey = generateLicenseKey nowMs rand ∧
      l2.licenseKey ≠ l.licenseKey ∧
      l2.status = "active" := by
  have h1 := handleCheckoutCompleted_run retrieveSub sess nowMs rand s uid hu hne hm
  rw [hg] at h1
  have hne2 : ¬ l.status = "active" := by simp [hc]
  simp only [hne2, if_false] at h1
  rw [h1]
  exact ⟨_, getLicenseByUserId_setLicense_self uid _ s, rfl, hk, rfl⟩

/-- Witness for claim C10: resubscribing after a cancel re-keys the
record. -/
theorem handleCheckoutCompleted_resubscribe_fresh_key_w :
    ∃ l2, getLicenseByUserId "u1"
        (handleCheckoutCompleted (fun _ => demoSub) paidSession 5 "z" canceledStore).1 =
        some l2 ∧
      l2.licenseKey = generateLicenseKey 5 "z" ∧
      l2.licenseKey ≠ canceledLicense.licenseKey ∧
      l2.status = "active" :=
  handleCheckoutCompleted_resubscribe_fresh_key (fun _ => demoSub) paidSession 5 "z"
    canceledStore "u1" canceledLicense (by decide) (by decide) (by decide) (by decide)
    (by decide) (by decide)

/-! ### Claim C8: auto-create eligibility checks -/

/-- Claim C8, counterexample: a request whose retrieved session is unpaid
is answered with "License already exists" — not a not-eligible result —
whenever a valid license is already stored for the user, because the
endpoint returns before ever retrieving the session. -/
theorem autoCreateLicense_existing_beats_checks :
    ((autoCreateLicense (fun _ => unpaidSession) (fun _ => demoSub) "cs_1" "u1"
        50 60 "z" validStore).1).isNotEligible = false ∧
    (autoCreateLicense (fun _ => unpaidSession) (fun _ => demoSub) "cs_1" "u1"
        50 60 "z" validStore).1 = .alreadyExists "fn_0_k" ∧
    unpaidSession.payment_status ≠ "paid" := by decide

/-- Claim C8 (amended): for a request (sessionId, userId) for which no
valid license is already stored, if the retrieved session is not paid, or
not in subscription mode, or the associated subscription's status is
neither `active` nor `trialing`, the endpoint returns an explicit
not-eligible result and leaves the store unchanged; and a `created`
result is only ever produced when all three checks pass. -/
theorem autoCreateLicense_not_eligible
    (retrieveSession : String → CheckoutSession) (retrieveSub : String → Subscription)
    (sessionId userId : String) (now nowMs : Nat) (rand : String) (s : Store)
    (hv : isValidLicense now (getLicenseByUserId userId s) = false) :
    (((retrieveSession sessionId).payment_status ≠ "paid" ∨
        (retrieveSession sessionId).mode ≠ "subscription" ∨
        ((retrieveSub (retrieveSession sessionId).subscription).status ≠ "active" ∧
          (retrieveSub (retrieveSession sessionId).subscription).status ≠ "trialing")) →
      ((autoCreateLicense retrieveSession retrieveSub sessionId userId now nowMs
          rand s).1.isNotEligible = true ∧
        (autoCreateLicense retrieveSession retrieveSub sessionId userId now nowMs
          rand s).2 = s)) ∧
    (∀ k, (autoCreateLicense retrieveSession retrieveSub sessionId userId now nowMs
        rand s).1 = .created k →
      ((retrieveSession sessionId).payment_status = "paid" ∧
        (retrieveSession sessionId).mode = "subscription" ∧
        ((retrieveSub (retrieveSession sessionId).subscription).status = "active" ∨
          (retrieveSub (retrieveSession sessionId).subscription).status = "trialing"))) := by
  have hfresh : autoCreateLicense retrieveSession retrieveSub sessionId userId now nowMs
      rand s =
      autoCreateFresh retrieveSession retrieveSub sessionId userId nowMs rand s := by
    unfold autoCreateLicense
    rcases hg : getLicenseByUserId userId s with _ | l
    · rfl
    · rw [hg] at hv
      simp [hv]
  rw [hfresh]
  unfold autoCreateFresh
  by_cases hp : (retrieveSession sessionId).payment_status = "paid"
  · by_cases hmm : (retrieveSession sessionId).mode = "subscription"
    · by_cases hsa : (retrieveSub (retrieveSession sessionId).subscription).status = "active"
      · constructor
        · rintro (h | h | h)
          · exact absurd hp h
          · exact absurd hmm h
          · exact absurd hsa h.1
        · intro k _
          exact ⟨hp, hmm, Or.inl hsa⟩
      · by_cases hst : (retrieveSub (retrieveSession sessionId).subscription).status = "trialing"
        · constructor
          · rintro (h | h | h)
            · exact absurd hp h
            · exact absurd hmm h
            · exact absurd hst h.2
          · intro k _
            exact ⟨hp, hmm, Or.inr hst⟩
        · constructor
          · intro _
            simp [hp, hmm, hsa, hst, AutoCreateResult.isNotEligible, bne_iff_ne]
          · intro k hk
            simp [hp, hmm, hsa, hst, bne_iff_ne] at hk
    · constructor
      · intro _
        simp [hp, hmm, AutoCreateResult.isNotEligible, bne_iff_ne]
      · intro k hk
        simp [hp, hmm, bne_iff_ne] at hk
  · constructor
    · intro _
      simp [hp, AutoCreateResult.isNotEligible, bne_iff_ne]
    · intro k hk
      simp [hp, bne_iff_ne] at hk

/-- Witness for claim C8 (amended): an unpaid session with no stored
license is rejected as not eligible with the store untouched. -/
theorem autoCreateLicense_not_eligible_w :
    ((autoCreateLicense (fun _ => unpaidSession) (fun _ => demoSub) "cs_1" "u1"
        50 60 "z" []).1).isNotEligible = true ∧
    (autoCreateLicense (fun _ => unpaidSession) (fun _ => demoSub) "cs_1" "u1"
        50 60 "z" []).2 = [] :=
  (autoCreateLicense_not_eligible (fun _ => unpaidSession) (fun _ => demoSub) "cs_1"
      "u1" 50 60 "z" [] (by decide)).1 (Or.inl (by decide))

/-! ### Claim C9: reconciliation prefers the existing customer mapping -/

/-- Claim C9: once the portal-session reconciliation has discovered a
`customerId`, it returns the record of an already-mapped local user (no
matter which `userId` is asking) and leaves the store untouched; it
materializes a record via `createLicense` only when no stored record maps
to that customer; consequently the number of active records for one
customer never grows beyond one. -/
theorem reconcileCustomer_prefers_existing
    (customerSubs : String → Option String) (userId customerId : String)
    (subscriptionId : Option String) (nowMs : Nat) (rand : String) (s : Store) :
    (∀ exU, findUserIdByCustomerId customerId s = some exU →
        reconcileCustomer customerSubs userId customerId subscriptionId nowMs rand s =
          (getLicenseByUserId exU s, s)) ∧
    (findUserIdByCustomerId customerId s = none →
      ∀ subId, effectiveSubscriptionId customerSubs subscriptionId customerId = some subId →
        (reconcileCustomer customerSubs userId customerId subscriptionId nowMs rand s).2 =
          (createLicense userId customerId subId nowMs rand s).2) ∧
    countActiveForCustomer customerId
        (reconcileCustomer customerSubs userId customerId subscriptionId nowMs rand s).2 ≤
      max 1 (countActiveForCustomer customerId s) := by
  rcases hf : findUserIdByCustomerId customerId s with _ | exU0
  · rcases he : effectiveSubscriptionId customerSubs subscriptionId customerId with _ | subId0
    · refine ⟨fun exU h => absurd h (by simp), fun _ subId h => absurd h (by simp), ?_⟩
      simp only [reconcileCustomer, hf, he]
      exact le_max_of_le_right le_rfl
    · refine ⟨fun exU h => absurd h (by simp), fun _ subId h => ?_, ?_⟩
      · obtain rfl : subId0 = subId := by simpa using h
        simp only [reconcileCustomer, hf, he]
      · simp only [reconcileCustomer, hf, he]
        have hnone : ∀ p ∈ s, p.2.stripeCustomerId ≠ customerId :=
          (findUserIdByCustomerId_eq_none_iff customerId s).mp hf
        exact le_max_of_le_left
          (countActiveForCustomer_setLicense_le_one customerId userId _ s hnone)
  · refine ⟨fun exU h => ?_, fun h _ _ => absurd h (by simp), ?_⟩
    · obtain rfl : exU0 = exU := by simpa using h
      simp [reconcileCustomer, hf]
    · simp only [reconcileCustomer, hf]
      exact le_max_of_le_right le_rfl

/-- Witness for claim C9: a second identity `u2` asking about customer
`cus_1`, which is already mapped to `u1`, receives `u1`'s record and the
store is unchanged. -/
theorem reconcileCustomer_prefers_existing_w :
    reconcileCustomer (fun _ => none) "u2" "cus_1" (some "sub_1") 9 "w" validStore =
      (some activeLicense, validStore) := by
  have h := (reconcileCustomer_prefers_existing (fun _ => none) "u2" "cus_1"
    (some "sub_1") 9 "w" validStore).1 "u1" (by decide)
  rw [h]
  decide

end FocusNudge
